import Mathlib

/-!
Verification of the Morgan priority-scoring and model-routing pipeline.

The definitions below are a shallow embedding of `src/models.py`,
`src/priority_engine.py` and `src/ai_engine.py`:

* Python floats are modelled as `ℚ` (the scoring arithmetic only uses
  decimal literals, addition, multiplication, division, `min`/`max`).
* `datetime` values are modelled by the three observations the code makes
  of them: absolute time in hours (used only to form `now - timestamp`),
  the `.hour` field and the `.weekday()` value.  The ambient clock
  `datetime.now()` is passed explicitly as a `now : DateTime` argument.
* The external AI providers are modelled by their observable outcome: an
  `Option AnalysisData` that is `none` when the provider call raises or
  its response is not valid JSON, and `some d` when it yields a parsed
  JSON object `d` (whose individual fields may still be missing or
  invalid, mirroring `dict.get` defaults and pydantic validation).
* Mutation of `PriorityCalculator.user_patterns` is modelled by explicit
  state passing: `calculate_priority` returns the updated calculator.
* Presentation-only strings (`recommended_action_time`, `reasoning` of a
  `PriorityScore`) and unused configuration (`role_authority_scores`,
  `simple_threshold`) are not modelled; no property concerns them.
-/

/-- Case-check-free starts-with test on character lists (Python `str.startswith`
used only as a building block for substring containment). -/
def listStartsWith : List Char → List Char → Bool
  | [], _ => true
  | _ :: _, [] => false
  | a :: p, b :: s => a == b && listStartsWith p s

/-- Substring containment on character lists: some suffix of the haystack
starts with the needle.  The empty needle is contained in every list,
matching Python `"" in s`. -/
def listIsInfix (p : List Char) : List Char → Bool
  | [] => p.isEmpty
  | c :: t => listStartsWith p (c :: t) || listIsInfix p t

/-- Python `needle in haystack` on strings. -/
def strContains (needle haystack : String) : Bool :=
  listIsInfix needle.data haystack.data

/-- Python `str.lower()` (per-character lowering; all keyword lists in the
source are ASCII, where this agrees with Python). -/
def strLower (s : String) : String := ⟨s.data.map Char.toLower⟩

/-- The clamp `max(0.0, min(1.0, x))` applied by every scoring stage in
`priority_engine.py`. -/
def clamp01 (x : ℚ) : ℚ := max 0 (min 1 x)

/-- Priority levels, `models.Priority`. -/
inductive Priority where
  | urgent
  | high
  | medium
  | low
  deriving DecidableEq, Repr

/-- Slack activity kinds, `models.ActivityType`. -/
inductive ActivityType where
  | mention
  | dm
  | thread_reply
  | channel_message
  deriving DecidableEq, Repr

/-- The `StrEnum` string value of each activity kind; the source compares
`activity_type.value` against these strings. -/
def ActivityType.value : ActivityType → String
  | .mention => "mention"
  | .dm => "dm"
  | .thread_reply => "thread_reply"
  | .channel_message => "channel"

/-- Work categories, `models.WorkType`. -/
inductive WorkType where
  | meeting
  | review
  | info
  | decision
  | support
  | other
  deriving DecidableEq, Repr

/-- The `StrEnum` string value of each work category. -/
def WorkType.value : WorkType → String
  | .meeting => "meeting"
  | .review => "review"
  | .info => "info"
  | .decision => "decision"
  | .support => "support"
  | .other => "other"

/-- A `datetime` as observed by the core: absolute hours (only differences
are used, via `datetime.now() - timestamp`), the `.hour` field and the
`.weekday()` value (Monday = 0). -/
structure DateTime where
  epochHours : ℚ
  hour : ℕ
  weekday : ℕ
  deriving DecidableEq, Repr

/-- A Slack message, `models.SlackMessage` (the `created_at` metadata field
is never read by the core and is omitted). -/
structure SlackMessage where
  message_id : String
  channel_id : String
  channel_name : String
  user_id : String
  username : String
  text : String
  timestamp : DateTime
  permalink : String
  activity_type : ActivityType
  thread_ts : Option String := none
  is_bot : Bool := false
  mentions_me : Bool := false
  deriving DecidableEq, Repr

/-- An AI analysis result, `models.AIAnalysis` (the `analysis_timestamp`
metadata field is never read and is omitted).  Numeric fields are left
unconstrained here so that tolerance of out-of-range values can be stated;
the pydantic range validation is modelled where construction happens
(`mkAnalysisFromData`). -/
structure AIAnalysis where
  action_required : Bool
  urgency_score : ℚ
  complexity : String
  work_type : WorkType
  emotional_tone : String
  estimated_time_minutes : ℤ
  confidence : ℚ
  reasoning : String
  detected_keywords : List String
  model_used : String
  deriving DecidableEq, Repr

/-- A learned behavioral pattern, `models.UserPattern` (timestamps omitted,
never read). -/
structure UserPattern where
  pattern_type : String
  pattern_value : String
  weight_adjustment : ℚ
  confidence : ℚ
  usage_count : ℕ := 0
  deriving DecidableEq, Repr

/-- The four-component weight dictionary of `PriorityCalculator`. -/
structure Weights where
  sender_authority : ℚ
  time_urgency : ℚ
  content_importance : ℚ
  personal_patterns : ℚ
  deriving DecidableEq, Repr

/-- A priority score, `models.PriorityScore` (presentation strings omitted,
see the header comment). -/
structure PriorityScore where
  final_score : ℚ
  priority_level : Priority
  sender_authority_score : ℚ
  time_urgency_score : ℚ
  content_importance_score : ℚ
  personal_weight_score : ℚ
  deriving DecidableEq, Repr

/-- The mutable state and configuration of `PriorityCalculator` as set up
by `__init__`: the stored user-pattern list and the working-hours window. -/
structure PriorityCalculator where
  user_patterns : List UserPattern
  working_start : ℕ
  working_end : ℕ
  deriving DecidableEq, Repr

/-- A freshly constructed `PriorityCalculator()`: no stored patterns,
working hours 9–18. -/
def PriorityCalculator.init : PriorityCalculator :=
  { user_patterns := [], working_start := 9, working_end := 18 }

/-- The default weight dictionary from `PriorityCalculator.__init__`. -/
def default_weights : Weights :=
  { sender_authority := 0.3
    time_urgency := 0.2
    content_importance := 0.3
    personal_patterns := 0.2 }

/-- `PriorityCalculator._calculate_sender_authority_score`. -/
def calculate_sender_authority_score (c : PriorityCalculator) (message : SlackMessage) : ℚ :=
  let base0 : ℚ := 0.5
  let base1 :=
    if message.activity_type.value = "dm" then base0 + 0.2
    else if message.activity_type.value = "mention" then base0 + 0.3
    else if message.activity_type.value = "thread_reply" then base0 + 0.1
    else base0
  let channel_name := strLower message.channel_name
  let base2 :=
    if ["exec", "leadership", "board"].any (fun keyword => strContains keyword channel_name) then
      base1 + 0.3
    else if ["urgent", "critical", "alert"].any (fun keyword => strContains keyword channel_name) then
      base1 + 0.25
    else if ["general", "random", "off-topic"].any (fun keyword => strContains keyword channel_name) then
      base1 - 0.1
    else base1
  let hour := message.timestamp.hour
  let base3 := if hour < c.working_start ∨ hour > c.working_end then base2 + 0.1 else base2
  clamp01 base3

/-- `PriorityCalculator._calculate_time_urgency_score`; `now` stands for
the `datetime.now()` read inside the function. -/
def calculate_time_urgency_score (now : DateTime) (message : SlackMessage)
    (ai_analysis : AIAnalysis) : ℚ :=
  let base0 := ai_analysis.urgency_score
  let age_hours := now.epochHours - message.timestamp.epochHours
  let base1 :=
    if age_hours < 1 then base0 + 0.2
    else if age_hours > 24 then base0 - 0.2
    else base0
  let weekday := message.timestamp.weekday
  let base2 :=
    if weekday ≥ 5 then base1 - 0.1
    else if weekday = 0 then base1 + 0.1
    else base1
  let hour := message.timestamp.hour
  let base3 :=
    if 9 ≤ hour ∧ hour ≤ 17 then base2 + 0.1
    else if hour ≥ 22 ∨ hour ≤ 6 then base2 + 0.2
    else base2
  clamp01 base3

/-- The hard-coded high-priority keyword list of
`_calculate_content_importance_score`. -/
def high_priority_keywords : List String :=
  ["urgent", "asap", "immediately", "critical", "emergency",
   "deadline", "board", "client", "customer", "revenue", "budget"]

/-- The keyword-count sub-expression of `_calculate_content_importance_score`:
`sum(1 for keyword in high_priority_keywords if keyword in text_lower)`. -/
def high_priority_keyword_count (text_lower : String) : ℕ :=
  high_priority_keywords.countP (fun keyword => strContains keyword text_lower)

/-- `PriorityCalculator._calculate_content_importance_score`. -/
def calculate_content_importance_score (message : SlackMessage)
    (ai_analysis : AIAnalysis) : ℚ :=
  let base0 : ℚ := 0.5
  let base1 := if ai_analysis.action_required then base0 + 0.3 else base0
  let base2 :=
    if ai_analysis.work_type.value ∈ ["decision", "meeting", "review"] then base1 + 0.2
    else if ai_analysis.work_type.value ∈ ["info", "support"] then base1 + 0.1
    else base1
  let base3 :=
    if ai_analysis.complexity = "complex" then base2 + 0.15
    else if ai_analysis.complexity = "simple" then base2 - 0.05
    else base2
  let base4 :=
    if ai_analysis.emotional_tone = "urgent" then base3 + 0.2
    else if ai_analysis.emotional_tone = "frustrated" then base3 + 0.15
    else if ai_analysis.emotional_tone = "encouraging" then base3 + 0.05
    else base3
  let text_length := message.text.length
  let base5 :=
    if text_length > 500 then base4 + 0.1
    else if text_length < 20 then base4 + 0.05
    else base4
  let text_lower := strLower message.text
  let keyword_count := high_priority_keyword_count text_lower
  let base6 := base5 + min 0.2 ((keyword_count : ℚ) * 0.05)
  clamp01 base6

/-- `PriorityCalculator._pattern_matches`. -/
def pattern_matches (pattern : UserPattern) (message : SlackMessage)
    (ai_analysis : AIAnalysis) : Bool :=
  let pattern_value := strLower pattern.pattern_value
  if pattern.pattern_type = "sender" then
    strContains pattern_value (strLower message.username)
  else if pattern.pattern_type = "channel" then
    strContains pattern_value (strLower message.channel_name)
  else if pattern.pattern_type = "keyword" then
    strContains pattern_value (strLower message.text)
  else if pattern.pattern_type = "work_type" then
    pattern_value == ai_analysis.work_type.value
  else if pattern.pattern_type = "time" then
    let hour := message.timestamp.hour
    if pattern_value = "morning" ∧ 6 ≤ hour ∧ hour < 12 then true
    else if pattern_value = "afternoon" ∧ 12 ≤ hour ∧ hour < 18 then true
    else if pattern_value = "evening" ∧ 18 ≤ hour ∧ hour < 22 then true
    else false
  else false

/-- `PriorityCalculator._apply_personal_patterns` (the loop over stored
patterns, translated to a fold). -/
def apply_personal_patterns (c : PriorityCalculator) (message : SlackMessage)
    (ai_analysis : AIAnalysis) : ℚ :=
  let base_score := c.user_patterns.foldl
    (fun acc pattern =>
      if pattern_matches pattern message ai_analysis then
        acc + pattern.weight_adjustment * pattern.confidence
      else acc)
    0.5
  clamp01 base_score

/-- `PriorityCalculator._get_adjusted_weights`. -/
def get_adjusted_weights (message : SlackMessage) : Weights :=
  let w := default_weights
  let w1 :=
    if message.activity_type.value = "dm" then
      { w with sender_authority := w.sender_authority + 0.1,
               time_urgency := w.time_urgency + 0.05 }
    else if message.activity_type.value = "mention" then
      { w with content_importance := w.content_importance + 0.1 }
    else if message.activity_type.value = "channel" then
      { w with personal_patterns := w.personal_patterns + 0.1 }
    else w
  let total := w1.sender_authority + w1.time_urgency + w1.content_importance + w1.personal_patterns
  { sender_authority := w1.sender_authority / total
    time_urgency := w1.time_urgency / total
    content_importance := w1.content_importance / total
    personal_patterns := w1.personal_patterns / total }

/-- `PriorityCalculator._score_to_priority`. -/
def score_to_priority (score : ℚ) : Priority :=
  if score ≥ 0.8 then Priority.urgent
  else if score ≥ 0.6 then Priority.high
  else if score ≥ 0.4 then Priority.medium
  else Priority.low

/-- `PriorityCalculator.calculate_priority`.  The Python method mutates
`self.user_patterns` when a truthy (non-empty) pattern list is supplied;
this is modelled by returning the updated calculator alongside the score.
`now` stands for the ambient `datetime.now()`. -/
def calculate_priority (c : PriorityCalculator) (now : DateTime) (message : SlackMessage)
    (ai_analysis : AIAnalysis) (user_patterns : Option (List UserPattern)) :
    PriorityScore × PriorityCalculator :=
  let c1 :=
    match user_patterns with
    | some ps => if ps = [] then c else { c with user_patterns := ps }
    | none => c
  let sender_score := calculate_sender_authority_score c1 message
  let time_score := calculate_time_urgency_score now message ai_analysis
  let content_score := calculate_content_importance_score message ai_analysis
  let personal_score := apply_personal_patterns c1 message ai_analysis
  let weights := get_adjusted_weights message
  let final_score :=
    sender_score * weights.sender_authority +
    time_score * weights.time_urgency +
    content_score * weights.content_importance +
    personal_score * weights.personal_patterns
  let final_score := clamp01 final_score
  let priority_level := score_to_priority final_score
  ({ final_score := final_score
     priority_level := priority_level
     sender_authority_score := sender_score
     time_urgency_score := time_score
     content_importance_score := content_score
     personal_weight_score := personal_score }, c1)

/-- `PriorityCalculator.batch_calculate_priorities`: sets stored patterns
when a truthy list is supplied and then calls `calculate_priority` per
message (passing the same optional list on), threading the calculator
state through. -/
def batch_calculate_priorities (c : PriorityCalculator)
    (now : DateTime) (messages_with_analysis : List (SlackMessage × AIAnalysis))
    (user_patterns : Option (List UserPattern)) :
    List PriorityScore × PriorityCalculator :=
  let c1 :=
    match user_patterns with
    | some ps => if ps = [] then c else { c with user_patterns := ps }
    | none => c
  messages_with_analysis.foldl
    (fun (acc : List PriorityScore × PriorityCalculator) ma =>
      let r := calculate_priority acc.2 now ma.1 ma.2 user_patterns
      (acc.1 ++ [r.1], r.2))
    ([], c1)

/-- The complex-indicator keyword list of `AIModelRouter.__init__`. -/
def complex_indicators : List String :=
  ["project", "budget", "deadline", "meeting", "review",
   "approval", "decision", "strategy", "planning"]

/-- `AIModelRouter.should_use_complex_model`. -/
def should_use_complex_model (message : SlackMessage) : Bool :=
  let text := strLower message.text
  if message.text.length > 200 then true
  else if complex_indicators.any (fun indicator => strContains indicator text) then true
  else if message.mentions_me then true
  else if message.activity_type.value = "dm" then true
  else false

/-- A provider response successfully decoded from JSON: each field of the
analysis object, `none` when the key is absent (mirroring `dict.get`
defaults). -/
structure AnalysisData where
  action_required : Option Bool := none
  urgency_score : Option ℚ := none
  complexity : Option String := none
  work_type : Option String := none
  emotional_tone : Option String := none
  estimated_time_minutes : Option ℤ := none
  confidence : Option ℚ := none
  reasoning : Option String := none
  detected_keywords : Option (List String) := none
  deriving DecidableEq, Repr

/-- `WorkType(s)` as a partial constructor: `none` models the `ValueError`
raised for a string that is not a member of the enum. -/
def workTypeOfString (s : String) : Option WorkType :=
  if s = "meeting" then some WorkType.meeting
  else if s = "review" then some WorkType.review
  else if s = "info" then some WorkType.info
  else if s = "decision" then some WorkType.decision
  else if s = "support" then some WorkType.support
  else if s = "other" then some WorkType.other
  else none

/-- Construction of an `AIAnalysis` from parsed provider data with the
per-tier defaults, as done in `quick_classify` / `deep_analyze`.  `none`
models the exceptions the construction can raise inside the adapters'
`try` blocks: `ValueError` from `WorkType(...)` and pydantic range
validation of `AIAnalysis` (urgency/confidence in [0,1], minutes ≥ 0). -/
def mkAnalysisFromData (d : AnalysisData) (defComplexity : String) (defMinutes : ℤ)
    (defConfidence : ℚ) (defReasoning : String) (modelName : String) : Option AIAnalysis :=
  match workTypeOfString (d.work_type.getD "other") with
  | none => none
  | some wt =>
    let urgency := d.urgency_score.getD 0.5
    let conf := d.confidence.getD defConfidence
    let minutes := d.estimated_time_minutes.getD defMinutes
    if 0 ≤ urgency ∧ urgency ≤ 1 ∧ 0 ≤ conf ∧ conf ≤ 1 ∧ 0 ≤ minutes then
      some
        { action_required := d.action_required.getD false
          urgency_score := urgency
          complexity := d.complexity.getD defComplexity
          work_type := wt
          emotional_tone := d.emotional_tone.getD "neutral"
          estimated_time_minutes := minutes
          confidence := conf
          reasoning := d.reasoning.getD defReasoning
          detected_keywords := d.detected_keywords.getD []
          model_used := modelName }
    else none

/-- The action-indicator word list of `OpenAIClient._create_fallback_analysis`. -/
def fallback_action_words : List String :=
  ["?", "please", "can you", "could you", "review", "check", "confirm"]

/-- `OpenAIClient._create_fallback_analysis`. -/
def create_fallback_analysis (message : SlackMessage) (error_type : String) : AIAnalysis :=
  let text_lower := strLower message.text
  let action_required := fallback_action_words.any (fun word => strContains word text_lower)
  let urgency_score : ℚ := if message.mentions_me then 0.7 else 0.3
  let urgency_score :=
    if ["urgent", "asap", "급함"].any (fun word => strContains word text_lower) then 0.9
    else urgency_score
  { action_required := action_required
    urgency_score := urgency_score
    complexity := "simple"
    work_type := WorkType.other
    emotional_tone := "neutral"
    estimated_time_minutes := 15
    confidence := 0.3
    reasoning := "Fallback analysis due to " ++ error_type
    detected_keywords := []
    model_used := "fallback-heuristic" }

/-- `OpenAIClient.quick_classify`: `providerResponse` is the observable
outcome of the provider call (`none` = the call raised or its payload was
not valid JSON); any exception inside the `try` block — including
construction failure on decoded data — lands in the fallback branch. -/
def quick_classify (providerResponse : Option AnalysisData) (model : String)
    (message : SlackMessage) : AIAnalysis :=
  match providerResponse with
  | some d =>
    match mkAnalysisFromData d "simple" 10 0.7 "Quick AI classification" model with
    | some a => a
    | none => create_fallback_analysis message "openai-error"
  | none => create_fallback_analysis message "openai-error"

/-- `ClaudeClient.deep_analyze`: on any failure of the expensive-tier call
or of parsing/construction, the `except` branch delegates to a cheap-tier
`quick_classify` call (whose own provider outcome is `cheapResponse`). -/
def deep_analyze (providerResponse : Option AnalysisData) (cheapResponse : Option AnalysisData)
    (deepModel : String) (cheapModel : String) (message : SlackMessage) : AIAnalysis :=
  match providerResponse with
  | some d =>
    match mkAnalysisFromData d "medium" 20 0.8 "Deep Claude analysis" deepModel with
    | some a => a
    | none => quick_classify cheapResponse cheapModel message
  | none => quick_classify cheapResponse cheapModel message

/-- Specification-side decomposition of the activity-kind adjustment in
`_calculate_sender_authority_score`. -/
def activity_adjustment (message : SlackMessage) : ℚ :=
  if message.activity_type.value = "dm" then 0.2
  else if message.activity_type.value = "mention" then 0.3
  else if message.activity_type.value = "thread_reply" then 0.1
  else 0

/-- Specification-side decomposition of the channel-name adjustment in
`_calculate_sender_authority_score` (the if/elif/elif chain on channel
keywords). -/
def channel_adjustment (channel_name : String) : ℚ :=
  let ch := strLower channel_name
  if ["exec", "leadership", "board"].any (fun keyword => strContains keyword ch) then 0.3
  else if ["urgent", "critical", "alert"].any (fun keyword => strContains keyword ch) then 0.25
  else if ["general", "random", "off-topic"].any (fun keyword => strContains keyword ch) then -0.1
  else 0

/-- Specification-side decomposition of the outside-working-hours adjustment
in `_calculate_sender_authority_score`. -/
def outside_hours_adjustment (c : PriorityCalculator) (message : SlackMessage) : ℚ :=
  if message.timestamp.hour < c.working_start ∨ message.timestamp.hour > c.working_end then 0.1
  else 0

/-- Specification-side content-importance score, written per the spec text:
base 0.5, one additive adjustment per factor, keyword boost of 0.05 per
distinct keyword present (capped at 0.2), clamped once at the end. -/
def content_importance_spec (message : SlackMessage) (ai : AIAnalysis) : ℚ :=
  clamp01 (0.5
    + (if ai.action_required then 0.3 else 0)
    + (if ai.work_type = WorkType.decision ∨ ai.work_type = WorkType.meeting ∨
          ai.work_type = WorkType.review then 0.2
       else if ai.work_type = WorkType.info ∨ ai.work_type = WorkType.support then 0.1
       else 0)
    + (if ai.complexity = "complex" then 0.15
       else if ai.complexity = "simple" then -0.05
       else 0)
    + (if ai.emotional_tone = "urgent" then 0.2
       else if ai.emotional_tone = "frustrated" then 0.15
       else if ai.emotional_tone = "encouraging" then 0.05
       else 0)
    + (if message.text.length > 500 then 0.1
       else if message.text.length < 20 then 0.05
       else 0)
    + min 0.2 ((high_priority_keywords.countP
          (fun keyword => strContains keyword (strLower message.text)) : ℚ) * 0.05))

/-- Occurrence count of a needle in a haystack: the number of starting
positions at which the needle occurs.  Used only to state the
occurrence-counting reading of the keyword boost, which the code does not
implement. -/
def count_occurrences (p : List Char) : List Char → ℕ
  | [] => 0
  | c :: t => (if listStartsWith p (c :: t) then 1 else 0) + count_occurrences p t

/-- Total number of occurrences of high-priority keywords in the lowercased
text (the occurrence-counting reading of the keyword boost). -/
def total_keyword_occurrences (text : String) : ℕ :=
  (high_priority_keywords.map
    (fun keyword => count_occurrences keyword.data (strLower text).data)).sum

/-- Concrete 250-character message with no routing keywords, no mention, and
channel-message activity (the C2 scenario). -/
def msg250 : SlackMessage :=
  { message_id := "m250"
    channel_id := "C0"
    channel_name := "general"
    user_id := "U0"
    username := "someone"
    text := String.mk (List.replicate 250 'a')
    timestamp := ⟨0, 10, 2⟩
    permalink := "p"
    activity_type := ActivityType.channel_message
    mentions_me := false }

/-- The learned pattern of the C7 scenario. -/
def alice_pattern : UserPattern :=
  { pattern_type := "sender"
    pattern_value := "alice"
    weight_adjustment := 0.3
    confidence := 1
    usage_count := 0 }

/-- Concrete message from a user whose username contains "alice". -/
def msgAliceW : SlackMessage :=
  { message_id := "ma"
    channel_id := "CA"
    channel_name := "work"
    user_id := "UA"
    username := "alice_kim"
    text := "status update"
    timestamp := ⟨0, 10, 2⟩
    permalink := "p"
    activity_type := ActivityType.channel_message
    mentions_me := false }

/-- Concrete message whose text contains the keyword "urgent" five times. -/
def msgC6 : SlackMessage :=
  { message_id := "m6"
    channel_id := "C6"
    channel_name := "work"
    user_id := "U6"
    username := "bob"
    text := "urgent urgent urgent urgent urgent"
    timestamp := ⟨0, 10, 2⟩
    permalink := "p"
    activity_type := ActivityType.channel_message
    mentions_me := false }

/-- Neutral analysis accompanying `msgC6` (all content adjustments other
than the keyword boost are zero). -/
def aiC6 : AIAnalysis :=
  { action_required := false
    urgency_score := 0.5
    complexity := "medium"
    work_type := WorkType.other
    emotional_tone := "neutral"
    estimated_time_minutes := 10
    confidence := 0.7
    reasoning := "r"
    detected_keywords := []
    model_used := "test" }

/-- The C8 scenario message, parametric in its timestamp. -/
def msgC8at (ts : DateTime) : SlackMessage :=
  { message_id := "m8"
    channel_id := "C8"
    channel_name := "random"
    user_id := "U8"
    username := "someone"
    text := "got it, thanks"
    timestamp := ts
    permalink := "p"
    activity_type := ActivityType.channel_message
    mentions_me := false }

/-- The C8 scenario analysis. -/
def aiC8 : AIAnalysis :=
  { action_required := false
    urgency_score := 0.1
    complexity := "simple"
    work_type := WorkType.other
    emotional_tone := "neutral"
    estimated_time_minutes := 5
    confidence := 0.9
    reasoning := "r"
    detected_keywords := []
    model_used := "test" }

/-- Concrete message from "alice" used to expose cross-call pattern reuse. -/
def m9 : SlackMessage :=
  { message_id := "m9"
    channel_id := "C9"
    channel_name := "work"
    user_id := "U9"
    username := "alice"
    text := "hello there"
    timestamp := ⟨0, 10, 2⟩
    permalink := "p"
    activity_type := ActivityType.channel_message
    mentions_me := false }

/-- Neutral analysis accompanying `m9`. -/
def a9 : AIAnalysis :=
  { action_required := false
    urgency_score := 0.5
    complexity := "medium"
    work_type := WorkType.other
    emotional_tone := "neutral"
    estimated_time_minutes := 10
    confidence := 0.7
    reasoning := "r"
    detected_keywords := []
    model_used := "test" }

/-- Evaluation time half an hour after the timestamp of `m9`. -/
def now9 : DateTime := ⟨1/2, 10, 2⟩

/-- Concrete message for the fallback witness. -/
def msgW : SlackMessage :=
  { message_id := "mw"
    channel_id := "CW"
    channel_name := "general"
    user_id := "UW"
    username := "carol"
    text := "please check this"
    timestamp := ⟨0, 10, 2⟩
    permalink := "p"
    activity_type := ActivityType.channel_message
    mentions_me := false }

/-- A second message with the same text and mentions flag as `msgW` but a
different channel and author. -/
def msgW2 : SlackMessage :=
  { message_id := "mw2"
    channel_id := "CW2"
    channel_name := "random"
    user_id := "UW2"
    username := "dave"
    text := "please check this"
    timestamp := ⟨5, 14, 4⟩
    permalink := "q"
    activity_type := ActivityType.thread_reply
    mentions_me := false }

/-- Decoded provider data whose work-category string is not a valid
`WorkType` member, so `AIAnalysis` construction fails. -/
def badData : AnalysisData :=
  { work_type := some "unknown" }

/-- Concrete message whose channel name contains both an executive keyword
and an urgency keyword. -/
def msgExecW : SlackMessage :=
  { message_id := "me"
    channel_id := "CE"
    channel_name := "urgent-exec"
    user_id := "UE"
    username := "erin"
    text := "fyi"
    timestamp := ⟨0, 10, 2⟩
    permalink := "p"
    activity_type := ActivityType.channel_message
    mentions_me := false }

lemma clamp01_nonneg (x : ℚ) : 0 ≤ clamp01 x := le_max_left 0 _

lemma clamp01_le_one (x : ℚ) : clamp01 x ≤ 1 := max_le (by norm_num) (min_le_left 1 x)

lemma sender_score_mem (c : PriorityCalculator) (m : SlackMessage) :
    0 ≤ calculate_sender_authority_score c m ∧ calculate_sender_authority_score c m ≤ 1 := by
  simp only [calculate_sender_authority_score]
  exact ⟨clamp01_nonneg _, clamp01_le_one _⟩

lemma time_score_mem (now : DateTime) (m : SlackMessage) (ai : AIAnalysis) :
    0 ≤ calculate_time_urgency_score now m ai ∧ calculate_time_urgency_score now m ai ≤ 1 := by
  simp only [calculate_time_urgency_score]
  exact ⟨clamp01_nonneg _, clamp01_le_one _⟩

lemma content_score_mem (m : SlackMessage) (ai : AIAnalysis) :
    0 ≤ calculate_content_importance_score m ai ∧ calculate_content_importance_score m ai ≤ 1 := by
  simp only [calculate_content_importance_score]
  exact ⟨clamp01_nonneg _, clamp01_le_one _⟩

lemma personal_score_mem (c : PriorityCalculator) (m : SlackMessage) (ai : AIAnalysis) :
    0 ≤ apply_personal_patterns c m ai ∧ apply_personal_patterns c m ai ≤ 1 := by
  simp only [apply_personal_patterns]
  exact ⟨clamp01_nonneg _, clamp01_le_one _⟩

lemma activity_value_eq_dm (a : ActivityType) : a.value = "dm" ↔ a = ActivityType.dm := by
  cases a <;> simp +decide [ActivityType.value]

lemma mkAnalysisFromData_model_used (d : AnalysisData) (dc : String) (dm : ℤ) (dconf : ℚ)
    (dr : String) (mo : String) (a : AIAnalysis)
    (h : mkAnalysisFromData d dc dm dconf dr mo = some a) : a.model_used = mo := by
  simp only [mkAnalysisFromData] at h
  split at h
  · exact absurd h (by simp)
  · split at h
    · cases h
      rfl
    · exact absurd h (by simp)

lemma foldl_matching_sum (g : UserPattern → Bool) (f : UserPattern → ℚ) :
    ∀ (l : List UserPattern) (a : ℚ),
      l.foldl (fun acc p => if g p then acc + f p else acc) a
        = a + ((l.filter g).map f).sum := by
  intro l
  induction l with
  | nil => intro a; simp
  | cons p t ih =>
    intro a
    cases hg : g p with
    | true =>
      simp only [List.foldl_cons, hg, if_true, List.filter_cons_of_pos hg, List.map_cons,
        List.sum_cons, ih (a + f p)]
      ring
    | false =>
      rw [List.foldl_cons, List.filter_cons_of_neg (by simp [hg])]
      simpa [hg] using ih a

lemma work_value_mem_first (w : WorkType) :
    w.value ∈ (["decision", "meeting", "review"] : List String) ↔
      (w = WorkType.decision ∨ w = WorkType.meeting ∨ w = WorkType.review) := by
  cases w <;> decide

lemma work_value_mem_second (w : WorkType) :
    w.value ∈ (["info", "support"] : List String) ↔
      (w = WorkType.info ∨ w = WorkType.support) := by
  cases w <;> decide

lemma ite_add_chain1 (c : Prop) [Decidable c] (b x : ℚ) :
    (if c then b + x else b) = b + (if c then x else 0) := by
  split_ifs <;> ring

lemma ite_add_chain2 (c : Prop) [Decidable c] (b x y : ℚ) :
    (if c then b + x else b + y) = b + (if c then x else y) := by
  split_ifs <;> ring

lemma c8_sender (ts : DateTime) (h9 : 9 ≤ ts.hour) (h17 : ts.hour ≤ 17) :
    calculate_sender_authority_score PriorityCalculator.init (msgC8at ts) = 2/5 := by
  simp +decide only [calculate_sender_authority_score, msgC8at, PriorityCalculator.init,
    ActivityType.value]
  rw [if_neg (by omega)]
  norm_num [clamp01]

lemma c8_time (ts : DateTime) (now : DateTime) (h9 : 9 ≤ ts.hour) (h17 : ts.hour ≤ 17)
    (hw1 : 1 ≤ ts.weekday) (hw4 : ts.weekday ≤ 4)
    (hage : now.epochHours - ts.epochHours > 24) :
    calculate_time_urgency_score now (msgC8at ts) aiC8 = 0 := by
  simp only [calculate_time_urgency_score, msgC8at, aiC8]
  rw [if_pos (show 9 ≤ ts.hour ∧ ts.hour ≤ 17 from ⟨h9, h17⟩)]
  rw [if_neg (show ¬ ts.weekday ≥ 5 by omega)]
  rw [if_neg (show ¬ ts.weekday = 0 by omega)]
  rw [if_neg (show ¬ now.epochHours - ts.epochHours < 1 by linarith)]
  rw [if_pos hage]
  norm_num [clamp01]

lemma c8_content (ts : DateTime) :
    calculate_content_importance_score (msgC8at ts) aiC8 = 1/2 := by
  simp +decide only [calculate_content_importance_score, msgC8at, aiC8, WorkType.value]
  norm_num [clamp01,
    show high_priority_keyword_count (strLower "got it, thanks") = 0 from by decide]

lemma c8_personal (ts : DateTime) :
    apply_personal_patterns PriorityCalculator.init (msgC8at ts) aiC8 = 1/2 := by
  simp only [apply_personal_patterns, PriorityCalculator.init, List.foldl_nil]
  norm_num [clamp01]

lemma c8_weights (ts : DateTime) :
    get_adjusted_weights (msgC8at ts) = ⟨3/11, 2/11, 3/11, 3/11⟩ := by
  simp +decide only [get_adjusted_weights, default_weights, msgC8at, ActivityType.value]
  norm_num

lemma m9_sender (c : PriorityCalculator) (hs : c.working_start = 9) (he : c.working_end = 18) :
    calculate_sender_authority_score c m9 = 1/2 := by
  simp +decide only [calculate_sender_authority_score, m9, ActivityType.value, hs, he]
  norm_num [clamp01]

lemma m9_time : calculate_time_urgency_score now9 m9 a9 = 4/5 := by
  simp +decide only [calculate_time_urgency_score, now9, m9, a9]
  norm_num [clamp01]

lemma m9_content : calculate_content_importance_score m9 a9 = 11/20 := by
  simp +decide only [calculate_content_importance_score, m9, a9, WorkType.value]
  norm_num [clamp01, show high_priority_keyword_count (strLower "hello there") = 0 from by decide]

lemma m9_weights : get_adjusted_weights m9 = ⟨3/11, 2/11, 3/11, 3/11⟩ := by
  simp +decide only [get_adjusted_weights, default_weights, m9, ActivityType.value]
  norm_num

/-- C1: every `PriorityScore` produced by `calculate_priority` has a final
score in [0,1], and its priority level is exactly the lower-inclusive bucket
of the final score (≥0.8 urgent, ≥0.6 high, ≥0.4 medium, else low); the two
fields never disagree. -/
theorem c1_final_score_bucketing (c : PriorityCalculator) (now : DateTime)
    (message : SlackMessage) (ai : AIAnalysis) (ups : Option (List UserPattern)) :
    let r := (calculate_priority c now message ai ups).1
    (0 ≤ r.final_score ∧ r.final_score ≤ 1) ∧
    r.priority_level =
      (if r.final_score ≥ 0.8 then Priority.urgent
       else if r.final_score ≥ 0.6 then Priority.high
       else if r.final_score ≥ 0.4 then Priority.medium
       else Priority.low) := by
  refine ⟨⟨?_, ?_⟩, ?_⟩
  · simp only [calculate_priority]
    exact clamp01_nonneg _
  · simp only [calculate_priority]
    exact clamp01_le_one _
  · simp only [calculate_priority, score_to_priority]

set_option maxRecDepth 8000 in
/-- C2: the routing policy is a total function of the message that selects
the expensive tier iff the text is longer than 200 characters, the
lowercased text contains a complex-indicator keyword, the message mentions
the user, or the activity kind is direct message; in particular a
250-character keyword-free channel message with no mention routes to the
expensive tier. -/
theorem c2_routing_policy :
    (∀ message : SlackMessage,
      should_use_complex_model message = true ↔
        (message.text.length > 200 ∨
         (∃ k ∈ complex_indicators, strContains k (strLower message.text) = true) ∨
         message.mentions_me = true ∨
         message.activity_type = ActivityType.dm)) ∧
    should_use_complex_model msg250 = true := by
  constructor
  · intro message
    simp only [should_use_complex_model]
    split_ifs with h1 h2 h3 h4
    · simp only [true_iff]
      exact Or.inl h1
    · simp only [true_iff]
      rw [List.any_eq_true] at h2
      exact Or.inr (Or.inl h2)
    · simp only [true_iff]
      exact Or.inr (Or.inr (Or.inl h3))
    · simp only [true_iff]
      rw [activity_value_eq_dm] at h4
      exact Or.inr (Or.inr (Or.inr h4))
    · simp only [false_iff, not_or]
      rw [List.any_eq_true] at h2
      rw [activity_value_eq_dm] at h4
      exact ⟨h1, h2, by simpa using h3, h4⟩
  · decide

/-- C3: when the expensive-tier provider fails or returns an unparsable
response, `deep_analyze` returns exactly what calling the cheap adapter
directly on the same message would produce, and the result's tier
identifier is the cheap model (on cheap-tier success) or the heuristic
fallback marker — never the expensive model. -/
theorem c3_expensive_failure_delegates_to_cheap (cheapResponse : Option AnalysisData)
    (deepModel cheapModel : String) (message : SlackMessage) :
    deep_analyze none cheapResponse deepModel cheapModel message =
      quick_classify cheapResponse cheapModel message ∧
    ((deep_analyze none cheapResponse deepModel cheapModel message).model_used = cheapModel ∨
     (deep_analyze none cheapResponse deepModel cheapModel message).model_used =
       "fallback-heuristic") := by
  refine ⟨rfl, ?_⟩
  show (quick_classify cheapResponse cheapModel message).model_used = cheapModel ∨
    (quick_classify cheapResponse cheapModel message).model_used = "fallback-heuristic"
  match cheapResponse with
  | none => exact Or.inr rfl
  | some d =>
    simp only [quick_classify]
    cases h : mkAnalysisFromData d "simple" 10 0.7 "Quick AI classification" cheapModel with
    | none => exact Or.inr rfl
    | some a => exact Or.inl (mkAnalysisFromData_model_used _ _ _ _ _ _ _ h)

/-- C4: when the cheap-tier provider fails or its response cannot be turned
into an analysis, `quick_classify` returns the deterministic heuristic
fallback: action-required iff the lowercased text contains one of the
action words, urgency 0.9 on an urgency keyword else 0.7 on a mention else
0.3, complexity simple, work category other, confidence 0.3, 15 estimated
minutes, and a reasoning string recording the failure cause; the fallback
depends only on the message's text and mentions flag. -/
theorem c4_cheap_fallback_heuristic (cheapModel : String) (message message2 : SlackMessage)
    (error_type : String) (d : AnalysisData) :
    quick_classify none cheapModel message = create_fallback_analysis message "openai-error" ∧
    (mkAnalysisFromData d "simple" 10 0.7 "Quick AI classification" cheapModel = none →
      quick_classify (some d) cheapModel message =
        create_fallback_analysis message "openai-error") ∧
    ((create_fallback_analysis message error_type).action_required = true ↔
      ∃ w ∈ fallback_action_words, strContains w (strLower message.text) = true) ∧
    (create_fallback_analysis message error_type).urgency_score =
      (if ["urgent", "asap", "급함"].any (fun word => strContains word (strLower message.text))
       then (0.9 : ℚ)
       else if message.mentions_me then 0.7 else 0.3) ∧
    (create_fallback_analysis message error_type).complexity = "simple" ∧
    (create_fallback_analysis message error_type).work_type = WorkType.other ∧
    (create_fallback_analysis message error_type).confidence = 0.3 ∧
    (create_fallback_analysis message error_type).estimated_time_minutes = 15 ∧
    (create_fallback_analysis message error_type).reasoning =
      "Fallback analysis due to " ++ error_type ∧
    (message2.text = message.text → message2.mentions_me = message.mentions_me →
      create_fallback_analysis message2 error_type =
        create_fallback_analysis message error_type) := by
  refine ⟨rfl, ?_, ?_, rfl, rfl, rfl, rfl, rfl, rfl, ?_⟩
  · intro h
    simp only [quick_classify, h]
  · simp only [create_fallback_analysis, List.any_eq_true]
  · intro ht hm
    simp only [create_fallback_analysis, ht, hm]

/-- Witness for C4 at concrete inputs: a provider payload with an invalid
work category falls back, and two messages sharing text and mentions flag
get identical fallbacks. -/
theorem c4_cheap_fallback_heuristic_witness :
    mkAnalysisFromData badData "simple" 10 0.7 "Quick AI classification" "gpt-4o-mini" = none ∧
    quick_classify (some badData) "gpt-4o-mini" msgW =
      create_fallback_analysis msgW "openai-error" ∧
    msgW2.text = msgW.text ∧
    msgW2.mentions_me = msgW.mentions_me ∧
    create_fallback_analysis msgW2 "openai-error" = create_fallback_analysis msgW "openai-error" :=
  ⟨rfl,
   (c4_cheap_fallback_heuristic "gpt-4o-mini" msgW msgW2 "openai-error" badData).2.1 rfl,
   rfl, rfl,
   (c4_cheap_fallback_heuristic "gpt-4o-mini" msgW msgW2 "openai-error"
     badData).2.2.2.2.2.2.2.2.2 rfl rfl⟩

/-- C5: for arbitrary (even out-of-range) numeric inputs the calculator
produces sub-scores and a final score all clamped into [0,1]; the
embedding is a total function, so no input raises. -/
theorem c5_clamped_subscores (c : PriorityCalculator) (now : DateTime)
    (message : SlackMessage) (ai : AIAnalysis) (ups : Option (List UserPattern)) :
    let r := (calculate_priority c now message ai ups).1
    (0 ≤ r.sender_authority_score ∧ r.sender_authority_score ≤ 1) ∧
    (0 ≤ r.time_urgency_score ∧ r.time_urgency_score ≤ 1) ∧
    (0 ≤ r.content_importance_score ∧ r.content_importance_score ≤ 1) ∧
    (0 ≤ r.personal_weight_score ∧ r.personal_weight_score ≤ 1) ∧
    (0 ≤ r.final_score ∧ r.final_score ≤ 1) := by
  refine ⟨?_, ?_, ?_, ?_, ?_⟩ <;> simp only [calculate_priority]
  · exact sender_score_mem _ _
  · exact time_score_mem _ _ _
  · exact content_score_mem _ _
  · exact personal_score_mem _ _ _
  · exact ⟨clamp01_nonneg _, clamp01_le_one _⟩

set_option maxRecDepth 4000 in
/-- C6 counterexample: on a text containing the keyword "urgent" five
times, the code's content-importance score is 11/20 (it counts the keyword
once, boost 0.05), whereas the occurrence-counting reading of the claim
predicts 7/10 (boost capped at 0.2); the two disagree. -/
theorem c6_occurrence_counting_counterexample :
    calculate_content_importance_score msgC6 aiC6 = 11/20 ∧
    total_keyword_occurrences msgC6.text = 5 ∧
    clamp01 (0.5 + min 0.2 ((total_keyword_occurrences msgC6.text : ℚ) * 0.05)) = 7/10 ∧
    (11/20 : ℚ) ≠ 7/10 := by
  refine ⟨?_, by decide, ?_, by norm_num⟩
  · simp +decide only [calculate_content_importance_score, msgC6, aiC6, WorkType.value]
    norm_num [clamp01,
      show high_priority_keyword_count (strLower "urgent urgent urgent urgent urgent") = 1
        from by decide]
  · rw [show total_keyword_occurrences msgC6.text = 5 from by decide]
    norm_num [clamp01]

/-- C6 amended: the content-importance score equals the spec-side additive
form in which the keyword boost is 0.05 per DISTINCT keyword of the fixed
list present in the lowercased text (each keyword counted at most once no
matter how often it occurs), capped at 0.2. -/
theorem c6_keyword_boost_amended (message : SlackMessage) (ai : AIAnalysis) :
    calculate_content_importance_score message ai = content_importance_spec message ai := by
  simp only [calculate_content_importance_score, content_importance_spec,
    high_priority_keyword_count, sub_eq_add_neg, ite_add_chain1, ite_add_chain2,
    work_value_mem_first, work_value_mem_second]

/-- C7: a sender pattern "alice" with weight 0.3 and confidence 1 raises
the personal-weight score of any message whose lowercased username contains
"alice" to exactly 0.8 = 0.5 + 0.3; in general the personal-weight score is
the clamp of 0.5 plus the sum of weight×confidence over all matching
patterns — individual contributions are not clamped. -/
theorem c7_sender_pattern_adjustment (c : PriorityCalculator) (message : SlackMessage)
    (ai : AIAnalysis) :
    (strContains "alice" (strLower message.username) = true →
      apply_personal_patterns { c with user_patterns := [alice_pattern] } message ai = 0.8) ∧
    apply_personal_patterns c message ai =
      clamp01 (0.5 + ((c.user_patterns.filter
          (fun p => pattern_matches p message ai)).map
          (fun p => p.weight_adjustment * p.confidence)).sum) := by
  constructor
  · intro h
    have hm : pattern_matches alice_pattern message ai = true := by
      simp [pattern_matches, alice_pattern, show strLower "alice" = "alice" from by decide, h]
    simp only [apply_personal_patterns, List.foldl_cons, List.foldl_nil]
    rw [if_pos hm]
    norm_num [clamp01, alice_pattern]
  · simp only [apply_personal_patterns]
    rw [foldl_matching_sum]

/-- Witness for C7 at a concrete message from "alice_kim". -/
theorem c7_sender_pattern_adjustment_witness :
    strContains "alice" (strLower msgAliceW.username) = true ∧
    apply_personal_patterns { PriorityCalculator.init with user_patterns := [alice_pattern] }
      msgAliceW a9 = 0.8 :=
  ⟨by decide,
   (c7_sender_pattern_adjustment PriorityCalculator.init msgAliceW a9).1 (by decide)⟩

/-- C8 counterexample: the claim's universal quantification over timestamps
fails — for the fixed scenario message and analysis, a fresh (age half an
hour) Monday 23:00 timestamp yields final score 57/110 ≥ 0.4 and priority
level medium, not low. -/
theorem c8_low_priority_counterexample :
    let r := (calculate_priority PriorityCalculator.init ⟨1/2, 23, 0⟩ (msgC8at ⟨0, 23, 0⟩)
      aiC8 none).1
    r.final_score = 57/110 ∧ ¬ r.final_score < 0.4 ∧ r.priority_level = Priority.medium := by
  intro r
  have hs : calculate_sender_authority_score PriorityCalculator.init (msgC8at ⟨0, 23, 0⟩)
      = 1/2 := by
    simp +decide only [calculate_sender_authority_score, msgC8at, PriorityCalculator.init,
      ActivityType.value]
    norm_num [clamp01]
  have ht : calculate_time_urgency_score ⟨1/2, 23, 0⟩ (msgC8at ⟨0, 23, 0⟩) aiC8 = 3/5 := by
    simp +decide only [calculate_time_urgency_score, msgC8at, aiC8]
    norm_num [clamp01]
  have hfinal : r.final_score = 57/110 := by
    show (calculate_priority PriorityCalculator.init ⟨1/2, 23, 0⟩ (msgC8at ⟨0, 23, 0⟩)
      aiC8 none).1.final_score = 57/110
    simp only [calculate_priority, hs, ht, c8_content ⟨0, 23, 0⟩, c8_personal ⟨0, 23, 0⟩,
      c8_weights ⟨0, 23, 0⟩]
    norm_num [clamp01]
  have hlev : r.priority_level = score_to_priority r.final_score := rfl
  refine ⟨hfinal, by rw [hfinal]; norm_num, ?_⟩
  rw [hlev, hfinal]
  simp only [score_to_priority]
  norm_num

/-- C8 amended: for the scenario message and analysis, restricted to
timestamps during business hours (9–17) on Tuesday–Friday with the message
older than 24 hours, the final score is 21/55 < 0.4 and the priority level
is low; the unrestricted claim is refuted by the counterexample. -/
theorem c8_low_priority_amended (ts : DateTime) (now : DateTime)
    (h9 : 9 ≤ ts.hour) (h17 : ts.hour ≤ 17)
    (hw1 : 1 ≤ ts.weekday) (hw4 : ts.weekday ≤ 4)
    (hage : now.epochHours - ts.epochHours > 24) :
    let r := (calculate_priority PriorityCalculator.init now (msgC8at ts) aiC8 none).1
    r.final_score = 21/55 ∧ r.final_score < 0.4 ∧ r.priority_level = Priority.low := by
  intro r
  have hfinal : r.final_score = 21/55 := by
    show (calculate_priority PriorityCalculator.init now (msgC8at ts) aiC8 none).1.final_score
      = 21/55
    simp only [calculate_priority, c8_sender ts h9 h17, c8_time ts now h9 h17 hw1 hw4 hage,
      c8_content ts, c8_personal ts, c8_weights ts]
    norm_num [clamp01]
  have hlev : r.priority_level = score_to_priority r.final_score := rfl
  refine ⟨hfinal, by rw [hfinal]; norm_num, ?_⟩
  rw [hlev, hfinal]
  simp only [score_to_priority]
  norm_num

/-- Witness for the amended C8 at a concrete Wednesday 10:00 timestamp
evaluated 30 hours later. -/
theorem c8_low_priority_amended_witness :
    9 ≤ (⟨0, 10, 2⟩ : DateTime).hour ∧ (⟨0, 10, 2⟩ : DateTime).hour ≤ 17 ∧
    1 ≤ (⟨0, 10, 2⟩ : DateTime).weekday ∧ (⟨0, 10, 2⟩ : DateTime).weekday ≤ 4 ∧
    (⟨30, 16, 3⟩ : DateTime).epochHours - (⟨0, 10, 2⟩ : DateTime).epochHours > 24 ∧
    (calculate_priority PriorityCalculator.init ⟨30, 16, 3⟩ (msgC8at ⟨0, 10, 2⟩)
      aiC8 none).1.priority_level = Priority.low :=
  ⟨by decide, by decide, by decide, by decide, by norm_num,
   (c8_low_priority_amended ⟨0, 10, 2⟩ ⟨30, 16, 3⟩ (by decide) (by decide) (by decide)
     (by decide) (by norm_num)).2.2⟩

/-- C9 counterexample: the calculator is not a pure per-call consumer of
patterns — a call that supplies a non-empty pattern list changes the
calculator's state, and a later call on the changed state with no patterns
argument produces a different result (13/20) than the same call on a fresh
calculator (25/44). -/
theorem c9_pattern_persistence_counterexample :
    ((calculate_priority PriorityCalculator.init now9 m9 a9 (some [alice_pattern])).2 ≠
      PriorityCalculator.init) ∧
    (calculate_priority ((calculate_priority PriorityCalculator.init now9 m9 a9
        (some [alice_pattern])).2) now9 m9 a9 none).1.final_score = 13/20 ∧
    (calculate_priority PriorityCalculator.init now9 m9 a9 none).1.final_score = 25/44 ∧
    (13/20 : ℚ) ≠ 25/44 := by
  have hc2 : (calculate_priority PriorityCalculator.init now9 m9 a9
      (some [alice_pattern])).2 = ⟨[alice_pattern], 9, 18⟩ := rfl
  have hmatch : pattern_matches alice_pattern m9 a9 = true := by decide
  have hp1 : apply_personal_patterns (⟨[alice_pattern], 9, 18⟩ : PriorityCalculator) m9 a9
      = 4/5 := by
    simp only [apply_personal_patterns, List.foldl_cons, List.foldl_nil]
    rw [if_pos hmatch]
    norm_num [clamp01, alice_pattern]
  have hp0 : apply_personal_patterns PriorityCalculator.init m9 a9 = 1/2 := by
    simp only [apply_personal_patterns, PriorityCalculator.init, List.foldl_nil]
    norm_num [clamp01]
  have hsend1 : calculate_sender_authority_score
      (⟨[alice_pattern], 9, 18⟩ : PriorityCalculator) m9 = 1/2 := m9_sender _ rfl rfl
  have hsend0 : calculate_sender_authority_score PriorityCalculator.init m9 = 1/2 :=
    m9_sender _ rfl rfl
  refine ⟨?_, ?_, ?_, by norm_num⟩
  · rw [hc2]
    simp [PriorityCalculator.init]
  · rw [hc2]
    simp only [calculate_priority, hsend1, m9_time, m9_content, m9_weights, hp1]
    norm_num [clamp01]
  · simp only [calculate_priority, hsend0, m9_time, m9_content, m9_weights, hp0]
    norm_num [clamp01]

/-- C9 amended: the calculator persists the most recent non-empty supplied
pattern list: a call with no pattern argument leaves the state unchanged
(and therefore reuses patterns stored by earlier calls); a call with a
supplied list overwrites the stored list exactly when the list is
non-empty; and every call's result equals the result of a pattern-free call
on the post-call state, i.e. the result is a pure function of the call's
arguments, the clock, and the stored (post-update) pattern list. -/
theorem c9_pattern_persistence_amended (c : PriorityCalculator) (now : DateTime)
    (message : SlackMessage) (ai : AIAnalysis) :
    ((calculate_priority c now message ai none).2 = c) ∧
    (∀ ps : List UserPattern, (calculate_priority c now message ai (some ps)).2 =
      if ps = [] then c else { c with user_patterns := ps }) ∧
    (∀ ups : Option (List UserPattern), (calculate_priority c now message ai ups).1 =
      (calculate_priority ((calculate_priority c now message ai ups).2)
        now message ai none).1) := by
  refine ⟨rfl, ?_, ?_⟩
  · intro ps
    by_cases h : ps = []
    · simp only [calculate_priority, if_pos h]
    · simp only [calculate_priority, if_neg h]
  · intro ups
    cases ups with
    | none => rfl
    | some ps =>
      by_cases h : ps = []
      · simp only [calculate_priority, if_pos h]
      · simp only [calculate_priority, if_neg h]

/-- C10: the sender-authority score decomposes as the clamp of 0.5 plus an
activity adjustment plus a single channel-name adjustment plus an
outside-hours adjustment; the channel adjustment takes exactly one of the
values 0.3, 0.25, −0.1, 0, and a channel name matching both an executive
keyword and an urgency keyword receives 0.3, never the sum 0.55. -/
theorem c10_channel_adjustment_exclusive (c : PriorityCalculator) (message : SlackMessage) :
    calculate_sender_authority_score c message =
      clamp01 (0.5 + activity_adjustment message + channel_adjustment message.channel_name +
        outside_hours_adjustment c message) ∧
    (channel_adjustment message.channel_name = 0.3 ∨
     channel_adjustment message.channel_name = 0.25 ∨
     channel_adjustment message.channel_name = -0.1 ∨
     channel_adjustment message.channel_name = 0) ∧
    (["exec", "leadership", "board"].any
        (fun keyword => strContains keyword (strLower message.channel_name)) = true →
     ["urgent", "critical", "alert"].any
        (fun keyword => strContains keyword (strLower message.channel_name)) = true →
     channel_adjustment message.channel_name = 0.3) := by
  refine ⟨?_, ?_, ?_⟩
  · simp only [calculate_sender_authority_score, activity_adjustment, channel_adjustment,
      outside_hours_adjustment]
    split_ifs <;> ring_nf
  · simp only [channel_adjustment]
    split_ifs
    · exact Or.inl rfl
    · exact Or.inr (Or.inl rfl)
    · exact Or.inr (Or.inr (Or.inl rfl))
    · exact Or.inr (Or.inr (Or.inr rfl))
  · intro h1 _h2
    simp only [channel_adjustment]
    rw [if_pos h1]

/-- Witness for C10 at the concrete channel name "urgent-exec", which
contains both an executive and an urgency keyword. -/
theorem c10_channel_adjustment_exclusive_witness :
    ["exec", "leadership", "board"].any
      (fun keyword => strContains keyword (strLower msgExecW.channel_name)) = true ∧
    ["urgent", "critical", "alert"].any
      (fun keyword => strContains keyword (strLower msgExecW.channel_name)) = true ∧
    channel_adjustment msgExecW.channel_name = 0.3 :=
  ⟨by decide, by decide,
   (c10_channel_adjustment_exclusive PriorityCalculator.init msgExecW).2.2
     (by decide) (by decide)⟩
